import Mathlib

/-!
Verification of the character-pair auto-close support, the workspace tree
data provider and the long-text viewer of this repository, as a shallow
embedding in Lean 4.

The implementation of CharacterPairSupport and of the fake scoped line
tokens used by its unit tests lives outside the extracted sources (only
the test file vs/editor/test/common/modes/supports/characterPair.test.ts
is present), so those definitions are modelled from the specification and
pinned, assertion by assertion, against the unit tests; the theorem
characterPairSupport_matches_unit_tests below checks every assertion of
the test file against the model.
-/

/-- Standard token type of a lexical scope: other, comment or string,
as used by the tokenizer and by the notIn sets of auto-closing pairs. -/
inductive StandardTokenType where
  | Other
  | Comment
  | String
deriving DecidableEq, Repr

/-- A token of a tokenized line as built by the test utility
createFakeScopedLineTokens: a run of text together with its standard
token type. -/
structure TokenText where
  text : String
  type : StandardTokenType
deriving DecidableEq, Repr

/-- Cumulative end offsets of the tokens of a line, starting from a given
offset: token i covers the half-open offset range from the end of token
i-1 (or the start offset) to its own entry in this list. -/
def tokenEndsFrom : Nat → List TokenText → List Nat
  | _, [] => []
  | acc, t :: ts => (acc + t.text.length) :: tokenEndsFrom (acc + t.text.length) ts

/-- Cumulative end offsets of the tokens of a line, starting at offset 0. -/
def tokenEnds (tokens : List TokenText) : List Nat :=
  tokenEndsFrom 0 tokens

/-- Modelled from the spec: ScopedLineTokens.findTokenIndexAtOffset of the
editor core (absent from the extracted sources). Index of the token whose
half-open range contains the offset: the first token whose end offset
exceeds the offset, clamped to the last token of the line. -/
def findTokenIndexAtOffset : List Nat → Int → Nat
  | [], _ => 0
  | [_], _ => 0
  | e :: e2 :: rest, offset =>
    if offset < (e : Int) then 0 else 1 + findTokenIndexAtOffset (e2 :: rest) offset

/-- Standard token type of the token at a given index of the line
(Other when the index is out of range, which cannot happen on a
nonempty line). -/
def getStandardTokenType (tokens : List TokenText) (index : Nat) : StandardTokenType :=
  (tokens.getD index { text := "", type := StandardTokenType.Other }).type

/-- Standard token type of the scope enclosing a 1-based column: the type
of the token containing offset column - 2, the character just before the
cursor. -/
def enclosingTokenType (tokens : List TokenText) (column : Nat) : StandardTokenType :=
  getStandardTokenType tokens (findTokenIndexAtOffset (tokenEnds tokens) ((column : Int) - 2))

/-- Name of a standard token type, as written in notIn sets of the
language configuration. -/
def standardTokenTypeName : StandardTokenType → String
  | StandardTokenType.Other => "other"
  | StandardTokenType.Comment => "comment"
  | StandardTokenType.String => "string"

/-- An auto-closing pair of the resolved configuration: an open text, a
close text and the list of scope names in which auto-closing is
suppressed (empty when the notIn set is absent). -/
structure StandardAutoClosingPairConditional where
  openText : String
  closeText : String
  notIn : List String
deriving DecidableEq, Repr

/-- Modelled from the spec: StandardAutoClosingPairConditional.shouldAutoClose
of the editor core (absent from the extracted sources). Auto-closing is
always permitted on an empty line; otherwise it is permitted unless the
standard token type of the scope enclosing the column appears in the notIn
set of the pair. The resolution of a column to its enclosing token goes
through findTokenIndexAtOffset at offset column - 2, exactly as pinned by
the assertions of the unit test file in the extracted sources. -/
def StandardAutoClosingPairConditional.shouldAutoClose
    (pair : StandardAutoClosingPairConditional) (tokens : List TokenText) (column : Nat) : Bool :=
  if tokens.isEmpty then
    true
  else
    !(pair.notIn.contains (standardTokenTypeName (enclosingTokenType tokens column)))

/-- An auto-closing pair of the raw language configuration, with an
optional notIn set of scope names. -/
structure IAutoClosingPairConditional where
  openText : String
  closeText : String
  notIn : Option (List String)
deriving DecidableEq, Repr

/-- A plain open/close pair of the raw language configuration, as used for
surroundingPairs. -/
structure IAutoClosingPair where
  openText : String
  closeText : String
deriving DecidableEq, Repr

/-- The parts of the language configuration consumed by
CharacterPairSupport: brackets, autoClosingPairs and surroundingPairs,
each optional. -/
structure LanguageConfiguration where
  brackets : Option (List (String × String))
  autoClosingPairs : Option (List IAutoClosingPairConditional)
  surroundingPairs : Option (List IAutoClosingPair)

/-- Resolution of a raw configuration pair: the notIn set defaults to the
empty list when absent. -/
def toStandardPair (p : IAutoClosingPairConditional) : StandardAutoClosingPairConditional :=
  { openText := p.openText, closeText := p.closeText, notIn := p.notIn.getD [] }

/-- Resolution of a bracket pair into an auto-closing pair with no notIn
set. -/
def bracketToStandardPair (b : String × String) : StandardAutoClosingPairConditional :=
  { openText := b.1, closeText := b.2, notIn := [] }

/-- Resolution of a plain surrounding pair, which carries no notIn set. -/
def surroundingToStandardPair (p : IAutoClosingPair) : StandardAutoClosingPairConditional :=
  { openText := p.openText, closeText := p.closeText, notIn := [] }

/-- The state of a CharacterPairSupport: the two lists computed by its
constructor. -/
structure CharacterPairSupport where
  autoClosingPairsField : List StandardAutoClosingPairConditional
  surroundingPairsField : List StandardAutoClosingPairConditional
deriving DecidableEq, Repr

/-- Modelled from the spec: the CharacterPairSupport constructor (absent
from the extracted sources), pinned by the seven constructor unit tests:
autoClosingPairs, when present, wins over brackets; otherwise brackets,
when present, become auto-closing pairs; otherwise the list is empty.
surroundingPairs, when present, is kept as given; otherwise the
auto-closing pairs double as surrounding pairs. -/
def mkCharacterPairSupport (config : LanguageConfiguration) : CharacterPairSupport :=
  let autoClosing :=
    match config.autoClosingPairs with
    | some pairs => pairs.map toStandardPair
    | none =>
      match config.brackets with
      | some bs => bs.map bracketToStandardPair
      | none => []
  let surrounding :=
    match config.surroundingPairs with
    | some pairs => pairs.map surroundingToStandardPair
    | none => autoClosing
  { autoClosingPairsField := autoClosing, surroundingPairsField := surrounding }

/-- Accessor getAutoClosingPairs of CharacterPairSupport. -/
def CharacterPairSupport.getAutoClosingPairs (s : CharacterPairSupport) :
    List StandardAutoClosingPairConditional :=
  s.autoClosingPairsField

/-- Accessor getSurroundingPairs of CharacterPairSupport. -/
def CharacterPairSupport.getSurroundingPairs (s : CharacterPairSupport) :
    List StandardAutoClosingPairConditional :=
  s.surroundingPairsField

/-- Whether a 1-based column lies on a token boundary of the line: before
the first character, or right after the last character of some token. -/
def isTokenBoundaryColumn (tokens : List TokenText) (column : Nat) : Bool :=
  column = 1 || (tokenEnds tokens).contains (column - 1)

/-- A call to one of the three public methods of CharacterPairSupport:
shouldAutoClose addresses one of the auto-closing pairs by index. -/
inductive CPSCall where
  | getAutoClosingPairs
  | getSurroundingPairs
  | shouldAutoClose (pairIndex : Nat) (tokens : List TokenText) (column : Nat)

/-- Result of a call to a CharacterPairSupport method: a list of pairs or
a boolean. -/
inductive CPSResult where
  | pairs (ps : List StandardAutoClosingPairConditional)
  | flag (b : Bool)
deriving DecidableEq, Repr

/-- The default pair used when a shouldAutoClose call addresses an index
out of range. -/
def defaultStandardPair : StandardAutoClosingPairConditional :=
  { openText := "", closeText := "", notIn := [] }

/-- State-passing semantics of one method call on a CharacterPairSupport:
the returned value together with the state after the call. None of the
three methods assigns to a field, so the state is passed through. -/
def CharacterPairSupport.call (s : CharacterPairSupport) :
    CPSCall → CPSResult × CharacterPairSupport
  | CPSCall.getAutoClosingPairs => (CPSResult.pairs s.getAutoClosingPairs, s)
  | CPSCall.getSurroundingPairs => (CPSResult.pairs s.getSurroundingPairs, s)
  | CPSCall.shouldAutoClose i tokens column =>
    (CPSResult.flag ((s.getAutoClosingPairs.getD i defaultStandardPair).shouldAutoClose
      tokens column), s)

/-- State after a sequence of method calls on a CharacterPairSupport. -/
def runCalls (calls : List CPSCall) (s : CharacterPairSupport) : CharacterPairSupport :=
  calls.foldl (fun st c => (st.call c).2) s

/-- The brace pair with notIn string and comment, used by the unit tests
of shouldAutoClose. -/
def testPairBrace : StandardAutoClosingPairConditional :=
  { openText := "\x7b", closeText := "\x7d", notIn := ["string", "comment"] }

/-- The brace pair with no notIn set, used by the unit test named
shouldAutoClosePair in not interesting line 2. -/
def testPairBraceNoNotIn : StandardAutoClosingPairConditional :=
  { openText := "\x7b", closeText := "\x7d", notIn := [] }

/-- Token line of the unit test named shouldAutoClosePair in not
interesting line 1. -/
def lineNotInteresting1 : List TokenText :=
  [{ text := "do", type := StandardTokenType.Other }]

/-- Token line of the unit test named shouldAutoClosePair in not
interesting line 2. -/
def lineNotInteresting2 : List TokenText :=
  [{ text := "do", type := StandardTokenType.String }]

/-- Token line of the unit test named shouldAutoClosePair in interesting
line 1. -/
def lineInteresting1 : List TokenText :=
  [{ text := "\"a\"", type := StandardTokenType.String }]

/-- Token line of the unit test named shouldAutoClosePair in interesting
line 2. -/
def lineInteresting2 : List TokenText :=
  [{ text := "x=", type := StandardTokenType.Other },
   { text := "\"a\"", type := StandardTokenType.String },
   { text := ";", type := StandardTokenType.Other }]

/-- Token line of the unit test named shouldAutoClosePair in interesting
line 3. -/
def lineInteresting3 : List TokenText :=
  [{ text := " ", type := StandardTokenType.Other },
   { text := "//a", type := StandardTokenType.Comment }]

/-- A node of the workspace tree: the tree data provider that contributed
it, paired with the provider element it wraps. The provider and element
types are parameters of the embedding. -/
structure WorkspaceTreeItem (τ ε : Type) where
  treeDataProvider : τ
  element : ε
deriving DecidableEq, Repr

/-- Outcome of processing one project of the workspace in the root branch
of getChildren: the body throws somewhere, getProjectProvider returns
undefined, or a provider is found whose tree data provider returns an
optional list of children (none models null or undefined). -/
inductive ProjectFetchResult (τ ε : Type) where
  | throws
  | noProvider
  | ok (treeDataProvider : τ) (children : Option (List ε))
deriving DecidableEq, Repr

/-- Observable outcome of the root branch of getChildren: the returned
tree items, the unknownProjects list and the error count accumulated by
the loop. -/
structure RootChildrenResult (τ ε : Type) where
  treeItems : List (WorkspaceTreeItem τ ε)
  unknownProjects : List String
  errorCount : Nat
deriving DecidableEq, Repr

/-- One iteration of the project loop of getChildren, from
workspaceTreeDataProvider.ts: a throwing body increments the error count,
an undefined provider records the project path as unknown, a provider
with children appends each child wrapped with its tree data provider. -/
def processProject {τ ε : Type} (acc : RootChildrenResult τ ε)
    (p : String × ProjectFetchResult τ ε) : RootChildrenResult τ ε :=
  match p.2 with
  | ProjectFetchResult.throws => { acc with errorCount := acc.errorCount + 1 }
  | ProjectFetchResult.noProvider =>
    { acc with unknownProjects := acc.unknownProjects ++ [p.1] }
  | ProjectFetchResult.ok _ none => acc
  | ProjectFetchResult.ok tdp (some cs) =>
    { acc with treeItems :=
        acc.treeItems ++ cs.map (fun c => { treeDataProvider := tdp, element := c }) }

/-- The root branch of WorkspaceTreeDataProvider.getChildren (element
undefined): fold the project loop over the projects of the workspace in
order, starting from empty accumulators. Each project is its path paired
with the response of the environment for it. -/
def getChildrenRoot {τ ε : Type} (projects : List (String × ProjectFetchResult τ ε)) :
    RootChildrenResult τ ε :=
  projects.foldl processProject { treeItems := [], unknownProjects := [], errorCount := 0 }

/-- The tree items one project contributes to the root branch: its
children wrapped with its tree data provider when a provider was found
and returned a list, nothing otherwise. -/
def projectContribution {τ ε : Type} (p : String × ProjectFetchResult τ ε) :
    List (WorkspaceTreeItem τ ε) :=
  match p.2 with
  | ProjectFetchResult.ok tdp (some cs) =>
    cs.map (fun c => { treeDataProvider := tdp, element := c })
  | _ => []

/-- The unknown record of one project: its path when getProjectProvider
returned undefined, nothing otherwise. -/
def projectUnknownRecord {τ ε : Type} (p : String × ProjectFetchResult τ ε) :
    Option String :=
  match p.2 with
  | ProjectFetchResult.noProvider => some p.1
  | _ => none

/-- The element branch of WorkspaceTreeDataProvider.getChildren (element
defined): the children returned by the tree data provider of the element
(none models null or undefined), each wrapped with that same provider;
an absent list yields the empty list. -/
def getChildrenOfElement {τ ε : Type} (element : WorkspaceTreeItem τ ε)
    (items : Option (List ε)) : List (WorkspaceTreeItem τ ε) :=
  match items with
  | some its =>
    its.map (fun it => { treeDataProvider := element.treeDataProvider, element := it })
  | none => []

/-- An observable step of WorkspaceTreeDataProvider.refresh: the call to
getProjectsInWorkspace with its reload flag, or the firing of the
onDidChangeTreeData event. -/
inductive RefreshEvent where
  | getProjectsInWorkspace (reload : Bool)
  | fireDidChangeTreeData
deriving DecidableEq, Repr

/-- The trace of WorkspaceTreeDataProvider.refresh, from
workspaceTreeDataProvider.ts: reload the projects of the workspace, then
fire the tree data change event. -/
def refreshTrace : List RefreshEvent :=
  [RefreshEvent.getProjectsInWorkspace true, RefreshEvent.fireDidChangeTreeData]

/-- A dragged item of the workspace tree data transfer, carrying an
optional project file URI. -/
structure DraggedItem where
  projectFileUri : Option String
deriving DecidableEq, Repr

/-- The capabilities of a project provider that handleDrop inspects:
whether it supports drag and drop and whether it has a moveFile method. -/
structure ProjectProviderInfo where
  supportsDragAndDrop : Bool
  hasMoveFile : Bool
deriving DecidableEq, Repr

/-- An observable effect of WorkspaceTreeDataProvider.handleDrop: one of
the two error messages, the call to moveFile, the call to refresh, or the
type error raised when the transfer value is an empty array. -/
inductive DropEffect where
  | errorOnlyOneFile
  | errorDragDropNotSupported
  | moveFileCall
  | refreshCall
  | typeError
deriving DecidableEq, Repr

/-- WorkspaceTreeDataProvider.handleDrop from workspaceTreeDataProvider.ts
as an effect trace. Inputs: the drop target (none models undefined), the
value of the data transfer item for the workspace mime type (none when
the transfer has no such item), and the response of getProjectProvider as
a function of the project file URI. Mirrors the source sequence of
checks: missing target returns; a transfer of more than one item shows an
error and returns; reading the first item of an empty transfer value
raises a type error; a missing project file URI or a missing provider
returns; a provider without drag and drop support or without moveFile
shows an error and returns; otherwise moveFile and then refresh run. -/
def handleDrop {τ ε : Type} (target : Option (WorkspaceTreeItem τ ε))
    (transfer : Option (List DraggedItem))
    (providerFor : String → Option ProjectProviderInfo) : List DropEffect :=
  match target with
  | none => []
  | some _ =>
    let tooMany : Bool :=
      match transfer with
      | some v => decide (1 < v.length)
      | none => false
    if tooMany then
      [DropEffect.errorOnlyOneFile]
    else
      match transfer with
      | none => []
      | some [] => [DropEffect.typeError]
      | some (item :: _) =>
        match item.projectFileUri with
        | none => []
        | some uri =>
          match providerFor uri with
          | none => []
          | some prov =>
            if !prov.supportsDragAndDrop || !prov.hasMoveFile then
              [DropEffect.errorDragDropNotSupported]
            else
              [DropEffect.moveFileCall, DropEffect.refreshCall]

/-- Whether every check of handleDrop passes: a target is present, the
transfer value holds exactly one item, that item has a project file URI,
a provider is found for it, and the provider supports drag and drop and
has moveFile. -/
def dropChecksPass {τ ε : Type} (target : Option (WorkspaceTreeItem τ ε))
    (transfer : Option (List DraggedItem))
    (providerFor : String → Option ProjectProviderInfo) : Bool :=
  target.isSome &&
    (match transfer with
     | some [item] =>
       match item.projectFileUri with
       | some uri =>
         match providerFor uri with
         | some prov => prov.supportsDragAndDrop && prov.hasMoveFile
         | none => false
       | none => false
     | _ => false)

/-- Result record of the validate method of a Slick cell editor. -/
structure SlickValidateResults where
  valid : Bool
  msg : Option String
deriving DecidableEq, Repr

/-- The value given to LongTextViewer.loadValue: a plain string or an
object carrying a text field. -/
inductive LoadItem where
  | str (s : String)
  | obj (text : String)
deriving DecidableEq, Repr

/-- The mutable state of a LongTextViewer from the extracted viewer
source: the inner text of the content element, the display style of the
wrapper, and the absolute position of the wrapper. -/
structure LongTextViewer where
  contentText : String
  wrapperDisplay : String
  positionTop : Int
  positionLeft : Int
deriving DecidableEq, Repr

/-- LongTextViewer.loadValue: set the content text from the string itself
or from the text field of the object. -/
def LongTextViewer.loadValue (v : LongTextViewer) (item : LoadItem) : LongTextViewer :=
  match item with
  | LoadItem.str s => { v with contentText := s }
  | LoadItem.obj t => { v with contentText := t }

/-- LongTextViewer.hide: set the wrapper display style to none. -/
def LongTextViewer.hide (v : LongTextViewer) : LongTextViewer :=
  { v with wrapperDisplay := "none" }

/-- LongTextViewer.show: reset the wrapper display style. -/
def LongTextViewer.show (v : LongTextViewer) : LongTextViewer :=
  { v with wrapperDisplay := "" }

/-- LongTextViewer.position: place the wrapper five pixels up and left of
the given position. -/
def LongTextViewer.position (v : LongTextViewer) (top left : Int) : LongTextViewer :=
  { v with positionTop := top - 5, positionLeft := left - 5 }

/-- LongTextViewer.isValueChanged: the viewer never reports an edit. -/
def LongTextViewer.isValueChanged (_ : LongTextViewer) : Bool :=
  false

/-- LongTextViewer.serializeValue: the viewer serializes to the empty
string. -/
def LongTextViewer.serializeValue (_ : LongTextViewer) : String :=
  ""

/-- LongTextViewer.validate: validation always succeeds with no message. -/
def LongTextViewer.validate (_ : LongTextViewer) : SlickValidateResults :=
  { valid := true, msg := none }

/-- Configuration of the unit test named only autoClosingPairs. -/
def cfgOnlyAutoClosing : LanguageConfiguration :=
  { brackets := none,
    autoClosingPairs := some [{ openText := "a", closeText := "b", notIn := none }],
    surroundingPairs := none }

/-- Configuration of the unit test named only empty autoClosingPairs. -/
def cfgEmptyAutoClosing : LanguageConfiguration :=
  { brackets := none, autoClosingPairs := some [], surroundingPairs := none }

/-- Configuration of the unit test named only brackets. -/
def cfgOnlyBrackets : LanguageConfiguration :=
  { brackets := some [("a", "b")], autoClosingPairs := none, surroundingPairs := none }

/-- Configuration of the unit test named only empty brackets. -/
def cfgEmptyBrackets : LanguageConfiguration :=
  { brackets := some [], autoClosingPairs := none, surroundingPairs := none }

/-- Configuration of the unit test named only surroundingPairs. -/
def cfgOnlySurrounding : LanguageConfiguration :=
  { brackets := none, autoClosingPairs := none,
    surroundingPairs := some [{ openText := "a", closeText := "b" }] }

/-- Configuration of the unit test named only empty surroundingPairs. -/
def cfgEmptySurrounding : LanguageConfiguration :=
  { brackets := none, autoClosingPairs := none, surroundingPairs := some [] }

/-- Configuration of the unit test named brackets is ignored when having
autoClosingPairs. -/
def cfgBracketsIgnored : LanguageConfiguration :=
  { brackets := some [("a", "b")], autoClosingPairs := some [], surroundingPairs := none }

/-- The resolved pair expected by the constructor unit tests. -/
def pairAB : StandardAutoClosingPairConditional :=
  { openText := "a", closeText := "b", notIn := [] }

/-- The model of CharacterPairSupport reproduces every assertion of the
unit test file characterPair.test.ts of the extracted sources: the seven
constructor tests and the nineteen shouldAutoClose assertions. -/
theorem characterPairSupport_matches_unit_tests :
    ((mkCharacterPairSupport cfgOnlyAutoClosing).getAutoClosingPairs = [pairAB] ∧
     (mkCharacterPairSupport cfgOnlyAutoClosing).getSurroundingPairs = [pairAB]) ∧
    ((mkCharacterPairSupport cfgEmptyAutoClosing).getAutoClosingPairs = [] ∧
     (mkCharacterPairSupport cfgEmptyAutoClosing).getSurroundingPairs = []) ∧
    ((mkCharacterPairSupport cfgOnlyBrackets).getAutoClosingPairs = [pairAB] ∧
     (mkCharacterPairSupport cfgOnlyBrackets).getSurroundingPairs = [pairAB]) ∧
    ((mkCharacterPairSupport cfgEmptyBrackets).getAutoClosingPairs = [] ∧
     (mkCharacterPairSupport cfgEmptyBrackets).getSurroundingPairs = []) ∧
    ((mkCharacterPairSupport cfgOnlySurrounding).getAutoClosingPairs = [] ∧
     (mkCharacterPairSupport cfgOnlySurrounding).getSurroundingPairs = [pairAB]) ∧
    ((mkCharacterPairSupport cfgEmptySurrounding).getAutoClosingPairs = [] ∧
     (mkCharacterPairSupport cfgEmptySurrounding).getSurroundingPairs = []) ∧
    ((mkCharacterPairSupport cfgBracketsIgnored).getAutoClosingPairs = [] ∧
     (mkCharacterPairSupport cfgBracketsIgnored).getSurroundingPairs = []) ∧
    testPairBrace.shouldAutoClose [] 1 = true ∧
    testPairBrace.shouldAutoClose lineNotInteresting1 3 = true ∧
    testPairBraceNoNotIn.shouldAutoClose lineNotInteresting2 3 = true ∧
    (testPairBrace.shouldAutoClose lineInteresting1 1 = false ∧
     testPairBrace.shouldAutoClose lineInteresting1 2 = false ∧
     testPairBrace.shouldAutoClose lineInteresting1 3 = false ∧
     testPairBrace.shouldAutoClose lineInteresting1 4 = false) ∧
    (testPairBrace.shouldAutoClose lineInteresting2 1 = true ∧
     testPairBrace.shouldAutoClose lineInteresting2 2 = true ∧
     testPairBrace.shouldAutoClose lineInteresting2 3 = true ∧
     testPairBrace.shouldAutoClose lineInteresting2 4 = false ∧
     testPairBrace.shouldAutoClose lineInteresting2 5 = false ∧
     testPairBrace.shouldAutoClose lineInteresting2 6 = false ∧
     testPairBrace.shouldAutoClose lineInteresting2 7 = true) ∧
    (testPairBrace.shouldAutoClose lineInteresting3 1 = true ∧
     testPairBrace.shouldAutoClose lineInteresting3 2 = true ∧
     testPairBrace.shouldAutoClose lineInteresting3 3 = false ∧
     testPairBrace.shouldAutoClose lineInteresting3 4 = false ∧
     testPairBrace.shouldAutoClose lineInteresting3 5 = false) := by
  decide

/-- The state of a CharacterPairSupport is unchanged by any single method
call, hence by any sequence of method calls. -/
theorem runCalls_id (calls : List CPSCall) (s : CharacterPairSupport) :
    runCalls calls s = s := by
  induction calls generalizing s with
  | nil => rfl
  | cons c cs ih =>
    have h2 : (s.call c).2 = s := by cases c <;> rfl
    calc runCalls (c :: cs) s = runCalls cs (s.call c).2 := rfl
    _ = runCalls cs s := by rw [h2]
    _ = s := ih s

/-- C1: shouldAutoClose returns false exactly when the standard token type
of the scope enclosing the column appears in the notIn set of the pair
(which forces the line to be nonempty); otherwise it returns true, and in
particular it returns true everywhere when the pair has no notIn set. -/
theorem shouldAutoClose_false_iff_notIn
    (pair : StandardAutoClosingPairConditional) (tokens : List TokenText) (column : Nat) :
    (pair.shouldAutoClose tokens column = false ↔
      tokens ≠ [] ∧ standardTokenTypeName (enclosingTokenType tokens column) ∈ pair.notIn) ∧
    (pair.notIn = [] → pair.shouldAutoClose tokens column = true) := by
  constructor
  · cases tokens with
    | nil => simp [StandardAutoClosingPairConditional.shouldAutoClose]
    | cons t ts => simp [StandardAutoClosingPairConditional.shouldAutoClose]
  · intro h
    cases tokens with
    | nil => rfl
    | cons t ts => simp [StandardAutoClosingPairConditional.shouldAutoClose, h]

/-- Witness for C1 at the line of the unit test named shouldAutoClosePair
in interesting line 2: column 4 sits in a string scope, so the pair with
notIn string and comment is suppressed there, while the pair with no
notIn set is permitted there. -/
theorem shouldAutoClose_false_iff_notIn_witness :
    testPairBrace.shouldAutoClose lineInteresting2 4 = false ∧
    testPairBraceNoNotIn.shouldAutoClose lineInteresting2 4 = true :=
  ⟨(shouldAutoClose_false_iff_notIn testPairBrace lineInteresting2 4).1.mpr (by decide),
   (shouldAutoClose_false_iff_notIn testPairBraceNoNotIn lineInteresting2 4).2 rfl⟩

/-- C2 counterexample: column 5 of the line of the unit test named
shouldAutoClosePair in interesting line 3 lies on a token boundary (offset
4 is the end of the comment token), yet shouldAutoClose returns false
there, as the unit test itself asserts. -/
theorem shouldAutoClose_boundary_counterexample :
    isTokenBoundaryColumn lineInteresting3 5 = true ∧
    testPairBrace.shouldAutoClose lineInteresting3 5 = false := by
  decide

/-- C2 amended: shouldAutoClose returns true whenever the token list of
the line is empty; at a column lying on a token boundary of a nonempty
line there is no automatic permission: the result is still decided by the
standard token type of the enclosing token (the token whose range
contains offset column - 2), which is false exactly when that type is in
the notIn set of the pair. -/
theorem shouldAutoClose_empty_and_boundary
    (pair : StandardAutoClosingPairConditional) (tokens : List TokenText) (column : Nat) :
    (tokens = [] → pair.shouldAutoClose tokens column = true) ∧
    (isTokenBoundaryColumn tokens column = true → tokens ≠ [] →
      pair.shouldAutoClose tokens column =
        !(pair.notIn.contains (standardTokenTypeName (enclosingTokenType tokens column)))) := by
  constructor
  · intro h
    subst h
    rfl
  · intro _ h
    cases tokens with
    | nil => exact absurd rfl h
    | cons t ts => rfl

/-- Witness for C2 amended: the empty line is permitted at column 1, and
at boundary column 5 of the line of the unit test named shouldAutoClosePair
in interesting line 3 the result equals the notIn lookup of the enclosing
comment token. -/
theorem shouldAutoClose_empty_and_boundary_witness :
    testPairBrace.shouldAutoClose [] 1 = true ∧
    testPairBrace.shouldAutoClose lineInteresting3 5 =
      !(testPairBrace.notIn.contains
        (standardTokenTypeName (enclosingTokenType lineInteresting3 5))) :=
  ⟨(shouldAutoClose_empty_and_boundary testPairBrace [] 1).1 rfl,
   (shouldAutoClose_empty_and_boundary testPairBrace lineInteresting3 5).2
     (by decide) (by decide)⟩

/-- C3: shouldAutoClose is deterministic (equal pair, token list and
column give equal results) and pure (a shouldAutoClose method call leaves
the CharacterPairSupport state unchanged, and being a function of the
token list it cannot alter it). -/
theorem shouldAutoClose_deterministic_and_pure
    (p q : StandardAutoClosingPairConditional) (ts us : List TokenText) (c d : Nat)
    (s : CharacterPairSupport) (i : Nat)
    (hp : p = q) (ht : ts = us) (hc : c = d) :
    p.shouldAutoClose ts c = q.shouldAutoClose us d ∧
    (s.call (CPSCall.shouldAutoClose i ts c)).2 = s := by
  subst hp
  subst ht
  subst hc
  exact ⟨rfl, rfl⟩

/-- Witness for C3 at a concrete pair, line, column and support state. -/
theorem shouldAutoClose_deterministic_and_pure_witness :
    testPairBrace.shouldAutoClose lineInteresting1 2 =
      testPairBrace.shouldAutoClose lineInteresting1 2 ∧
    ((mkCharacterPairSupport cfgOnlyAutoClosing).call
      (CPSCall.shouldAutoClose 0 lineInteresting1 2)).2 =
      mkCharacterPairSupport cfgOnlyAutoClosing :=
  shouldAutoClose_deterministic_and_pure testPairBrace testPairBrace
    lineInteresting1 lineInteresting1 2 2 (mkCharacterPairSupport cfgOnlyAutoClosing) 0
    rfl rfl rfl

/-- C4: the pair lists of a CharacterPairSupport are fixed at construction
and immutable: after any sequence of calls to getAutoClosingPairs,
getSurroundingPairs and shouldAutoClose, both getters return the same
lists as immediately after construction. -/
theorem characterPairSupport_immutable (config : LanguageConfiguration)
    (calls : List CPSCall) :
    (runCalls calls (mkCharacterPairSupport config)).getAutoClosingPairs =
      (mkCharacterPairSupport config).getAutoClosingPairs ∧
    (runCalls calls (mkCharacterPairSupport config)).getSurroundingPairs =
      (mkCharacterPairSupport config).getSurroundingPairs := by
  rw [runCalls_id]
  exact ⟨rfl, rfl⟩

/-- C5: precedence of the configuration inputs of CharacterPairSupport:
a present autoClosingPairs list is taken as is (brackets ignored), absent
autoClosingPairs fall back to the brackets, a present surroundingPairs
list is returned as given, and absent surroundingPairs fall back to the
auto-closing pairs. -/
theorem mkCharacterPairSupport_precedence (config : LanguageConfiguration) :
    (∀ l, config.autoClosingPairs = some l →
      (mkCharacterPairSupport config).getAutoClosingPairs = l.map toStandardPair) ∧
    (config.autoClosingPairs = none → ∀ bs, config.brackets = some bs →
      (mkCharacterPairSupport config).getAutoClosingPairs = bs.map bracketToStandardPair) ∧
    (config.surroundingPairs = none →
      (mkCharacterPairSupport config).getSurroundingPairs =
        (mkCharacterPairSupport config).getAutoClosingPairs) ∧
    (∀ ps, config.surroundingPairs = some ps →
      (mkCharacterPairSupport config).getSurroundingPairs =
        ps.map surroundingToStandardPair) := by
  obtain ⟨b, a, sp⟩ := config
  refine ⟨?_, ?_, ?_, ?_⟩
  · intro l hl
    cases hl
    cases sp <;> rfl
  · intro ha bs hb
    cases ha
    cases hb
    cases sp <;> rfl
  · intro hsp
    cases hsp
    rfl
  · intro ps hsp
    cases hsp
    rfl

/-- Witness for C5 at the configuration of the unit test named brackets
is ignored when having autoClosingPairs, and at the configuration of the
unit test named only surroundingPairs. -/
theorem mkCharacterPairSupport_precedence_witness :
    (mkCharacterPairSupport cfgBracketsIgnored).getAutoClosingPairs = [] ∧
    (mkCharacterPairSupport cfgBracketsIgnored).getSurroundingPairs =
      (mkCharacterPairSupport cfgBracketsIgnored).getAutoClosingPairs ∧
    (mkCharacterPairSupport cfgOnlySurrounding).getSurroundingPairs = [pairAB] :=
  ⟨(mkCharacterPairSupport_precedence cfgBracketsIgnored).1 [] rfl,
   (mkCharacterPairSupport_precedence cfgBracketsIgnored).2.2.1 rfl,
   (mkCharacterPairSupport_precedence cfgOnlySurrounding).2.2.2
     [{ openText := "a", closeText := "b" }] rfl⟩

/-- The project loop of the root branch of getChildren, started from any
accumulator, appends exactly the contributions of the projects in order
and records exactly the paths of the projects without a provider. -/
theorem foldl_processProject (τ ε : Type)
    (projects : List (String × ProjectFetchResult τ ε)) (acc : RootChildrenResult τ ε) :
    (projects.foldl processProject acc).treeItems =
      acc.treeItems ++ projects.flatMap projectContribution ∧
    (projects.foldl processProject acc).unknownProjects =
      acc.unknownProjects ++ projects.filterMap projectUnknownRecord := by
  induction projects generalizing acc with
  | nil => simp
  | cons p ps ih =>
    obtain ⟨path, r⟩ := p
    cases r with
    | throws => simp [processProject, projectContribution, projectUnknownRecord, ih]
    | noProvider => simp [processProject, projectContribution, projectUnknownRecord, ih]
    | ok tdp children =>
      cases children <;>
        simp [processProject, projectContribution, projectUnknownRecord, ih]

/-- C6: the root branch of WorkspaceTreeDataProvider.getChildren returns
the concatenation, in project order, of the children contributed by each
project (each wrapped with the tree data provider of its project), while
projects without a provider contribute nothing and are recorded as
unknown, and projects whose processing throws contribute nothing and do
not stop the loop. -/
theorem getChildrenRoot_spec (τ ε : Type)
    (projects : List (String × ProjectFetchResult τ ε)) :
    (getChildrenRoot projects).treeItems = projects.flatMap projectContribution ∧
    (getChildrenRoot projects).unknownProjects =
      projects.filterMap projectUnknownRecord := by
  have h := foldl_processProject τ ε projects
    { treeItems := [], unknownProjects := [], errorCount := 0 }
  simpa [getChildrenRoot] using h

/-- C7: every item returned by the element branch of getChildren carries
the tree data provider of its parent element, and when the provider of
the parent returns no children (none, or an empty list) the result is
the empty list. -/
theorem getChildrenOfElement_spec (τ ε : Type) (element : WorkspaceTreeItem τ ε)
    (items : Option (List ε)) :
    (∀ x ∈ getChildrenOfElement element items,
      x.treeDataProvider = element.treeDataProvider) ∧
    (items = none → getChildrenOfElement element items = []) ∧
    (items = some [] → getChildrenOfElement element items = []) := by
  refine ⟨?_, ?_, ?_⟩
  · intro x hx
    cases items with
    | none => cases hx
    | some its =>
      simp only [getChildrenOfElement, List.mem_map] at hx
      obtain ⟨a, _, rfl⟩ := hx
      rfl
  · intro h
    subst h
    rfl
  · intro h
    subst h
    rfl

/-- Witness for C7: a concrete child of a concrete parent carries the
parent provider, and a parent whose provider returns none yields the
empty list. -/
theorem getChildrenOfElement_spec_witness :
    WorkspaceTreeItem.treeDataProvider (⟨1, 5⟩ : WorkspaceTreeItem Nat Nat) =
      WorkspaceTreeItem.treeDataProvider (⟨1, 2⟩ : WorkspaceTreeItem Nat Nat) ∧
    getChildrenOfElement (⟨1, 2⟩ : WorkspaceTreeItem Nat Nat) none = [] :=
  ⟨(getChildrenOfElement_spec Nat Nat ⟨1, 2⟩ (some [5, 6])).1 ⟨1, 5⟩ (by decide),
   (getChildrenOfElement_spec Nat Nat ⟨1, 2⟩ none).2.1 rfl⟩

/-- C8: the trace of WorkspaceTreeDataProvider.refresh contains the call
to getProjectsInWorkspace with the reload flag set and the firing of the
tree data change event, the reload strictly before the firing, and
nothing else: the call never passes a cleared reload flag. -/
theorem refresh_reloads_then_fires :
    RefreshEvent.getProjectsInWorkspace true ∈ refreshTrace ∧
    RefreshEvent.fireDidChangeTreeData ∈ refreshTrace ∧
    refreshTrace.indexOf (RefreshEvent.getProjectsInWorkspace true) <
      refreshTrace.indexOf RefreshEvent.fireDidChangeTreeData ∧
    RefreshEvent.getProjectsInWorkspace false ∉ refreshTrace ∧
    refreshTrace =
      [RefreshEvent.getProjectsInWorkspace true, RefreshEvent.fireDidChangeTreeData] := by
  decide

/-- C9: handleDrop performs moveFile or refresh exactly when every check
passes (a target, exactly one dragged item, a project file URI on it, a
provider for it, drag and drop support and a moveFile method), in which
case its effects are exactly moveFile followed by refresh; on every
failure path neither moveFile nor refresh happens. -/
theorem handleDrop_spec (τ ε : Type) (target : Option (WorkspaceTreeItem τ ε))
    (transfer : Option (List DraggedItem))
    (providerFor : String → Option ProjectProviderInfo) :
    ((DropEffect.moveFileCall ∈ handleDrop target transfer providerFor ∨
      DropEffect.refreshCall ∈ handleDrop target transfer providerFor) ↔
      dropChecksPass target transfer providerFor = true) ∧
    (dropChecksPass target transfer providerFor = true →
      handleDrop target transfer providerFor =
        [DropEffect.moveFileCall, DropEffect.refreshCall]) := by
  cases target with
  | none => simp [handleDrop, dropChecksPass]
  | some t =>
    cases transfer with
    | none => simp [handleDrop, dropChecksPass]
    | some v =>
      cases v with
      | nil => simp [handleDrop, dropChecksPass]
      | cons item rest =>
        cases rest with
        | cons item2 rest2 => simp [handleDrop, dropChecksPass]
        | nil =>
          cases huri : item.projectFileUri with
          | none => simp [handleDrop, dropChecksPass, huri]
          | some uri =>
            cases hp : providerFor uri with
            | none => simp [handleDrop, dropChecksPass, huri, hp]
            | some prov =>
              cases hs : prov.supportsDragAndDrop <;>
                cases hm : prov.hasMoveFile <;>
                  simp [handleDrop, dropChecksPass, huri, hp, hs, hm]

/-- Witness for C9: with a target, one dragged item carrying a project
URI and a fully capable provider, handleDrop moves the file and then
refreshes. -/
theorem handleDrop_spec_witness :
    handleDrop (some (⟨1, 2⟩ : WorkspaceTreeItem Nat Nat))
      (some [{ projectFileUri := some "p.sqlproj" }])
      (fun _ => some { supportsDragAndDrop := true, hasMoveFile := true }) =
      [DropEffect.moveFileCall, DropEffect.refreshCall] :=
  (handleDrop_spec Nat Nat (some ⟨1, 2⟩) (some [{ projectFileUri := some "p.sqlproj" }])
    (fun _ => some { supportsDragAndDrop := true, hasMoveFile := true })).2 rfl

/-- C10: in every state of a LongTextViewer, isValueChanged returns
false, serializeValue returns the empty string, and validate returns a
valid result with no message. -/
theorem longTextViewer_constant_observers (v : LongTextViewer) :
    v.isValueChanged = false ∧
    v.serializeValue = "" ∧
    v.validate = { valid := true, msg := none } :=
  ⟨rfl, rfl, rfl⟩
